import Mathlib

/-!
Verification of the tick-driven world simulation engine
(`src/server/src/simulation/engine.ts`) of the aliens-in-space repository.

The engine's numeric state lives in PostgreSQL columns (BIGINT for
population_size, INTEGER/DECIMAL for the other fields) and is manipulated in
JavaScript numbers.  All values the engine actually computes on are exact
decimal fractions, so we embed the numeric fields as `ℚ` (with `ℤ` for the
integral `population_size` and `tech_level`), and `Math.floor` as `Int.floor`
(both round toward `-∞`).  Every call to `Math.random()` is made explicit as a
`ℚ` parameter in `[0,1)`.  SQL row updates become functions from a record to a
record; SQL `GREATEST`/`LEAST` become `max`/`min`; note that the conflict and
tech-spread SQL updates in the source use *no* `GREATEST`/`LEAST` clamps and
are embedded without them.
-/

namespace AliensInSpace

/-- Embeds the `CellState` interface of engine.ts (and the `cells` table):
id, grid coordinates, biome tag, food capacity, temperature, moisture.
Row ids are abstracted to `ℕ`. -/
structure CellState where
  id : ℕ
  x : ℤ
  y : ℤ
  biome : String
  food_capacity : ℚ
  temperature : ℚ
  moisture : ℚ
deriving DecidableEq

/-- Embeds the `PopulationState` interface of engine.ts (and the
`populations` table). `population_size` is a BIGINT column and the SQL
updates may in principle drive it negative, so it is embedded as `ℤ`;
`tech_level` is likewise `ℤ` (the source computes `Math.max(0, t-1)` /
`Math.min(9, t+1)` on it). -/
structure PopulationState where
  id : ℕ
  cell_id : ℕ
  civilization_id : ℕ
  population_size : ℤ
  tech_level : ℤ
  stability : ℚ
  prosperity : ℚ
  education : ℚ
  birth_rate : ℚ
  death_rate : ℚ
  ideology_collectivism : ℚ
  ideology_tradition : ℚ
  ideology_authoritarianism : ℚ
  ideology_xenophobia : ℚ
  war_tendency : ℚ
  resource_efficiency : ℚ
  environmental_impact : ℚ
deriving DecidableEq

/-- `TICKS_PER_YEAR = 60` (engine.ts line 35). -/
def TICKS_PER_YEAR : ℕ := 60

/-- `calculateCarryingCapacity` (engine.ts lines 261-266):
`floor(food_capacity * 100 * (1 + techLevel*0.5) * biomeMultiplier)` with
biomeMultiplier 0.1 for ocean, 0.3 for desert, 1 otherwise. -/
def calculateCarryingCapacity (cell : CellState) (techLevel : ℤ) : ℤ :=
  let baseCap : ℚ := cell.food_capacity * 100
  let techMultiplier : ℚ := 1 + (techLevel : ℚ) * 0.5
  let biomeMultiplier : ℚ :=
    if cell.biome = "ocean" then 0.1 else if cell.biome = "desert" then 0.3 else 1
  Int.floor (baseCap * techMultiplier * biomeMultiplier)

/-- `crowdingFactor` of `updatePopulation` (engine.ts line 182):
`pop.population_size / carryingCapacity`.  The source divides with no guard
against a zero divisor; here `ℚ` division by zero yields 0, see the C9
analysis for the precondition under which the quotient is meaningful. -/
def crowdingFactor (pop : PopulationState) (cell : CellState) : ℚ :=
  (pop.population_size : ℚ) / (calculateCarryingCapacity cell pop.tech_level : ℚ)

/-- `effectiveBirthRate` after all the modifiers of engine.ts lines 185-196:
base `birth_rate * prosperity / 50`, crowding penalty when crowding > 1,
then the tech multiplier `1 + tech_level*0.02`. -/
def effectiveBirthRate (pop : PopulationState) (cell : CellState) : ℚ :=
  let cf := crowdingFactor pop cell
  let base := pop.birth_rate * pop.prosperity / 50
  let crowded := if cf > 1 then base * max 0.5 (1 - (cf - 1) * 0.2) else base
  crowded * (1 + (pop.tech_level : ℚ) * 0.02)

/-- `effectiveDeathRate` after all the modifiers of engine.ts lines 186-201:
base `death_rate`, crowding addend when crowding > 1, the tech multiplier
`max(0.3, 1 - tech_level*0.05)`, then the climate addend when the
temperature is below 0 or above 40. -/
def effectiveDeathRate (pop : PopulationState) (cell : CellState) : ℚ :=
  let cf := crowdingFactor pop cell
  let base := pop.death_rate
  let crowded := if cf > 1 then base + (cf - 1) * 0.01 else base
  let teched := crowded * max 0.3 (1 - (pop.tech_level : ℚ) * 0.05)
  if cell.temperature < 0 ∨ cell.temperature > 40 then teched + 0.005 else teched

/-- `birthsPerTick` (engine.ts line 204):
`floor(population_size * effectiveBirthRate / TICKS_PER_YEAR)`. -/
def birthsPerTick (pop : PopulationState) (cell : CellState) : ℤ :=
  Int.floor ((pop.population_size : ℚ) * effectiveBirthRate pop cell / (TICKS_PER_YEAR : ℚ))

/-- `deathsPerTick` (engine.ts line 205):
`floor(population_size * effectiveDeathRate / TICKS_PER_YEAR)`. -/
def deathsPerTick (pop : PopulationState) (cell : CellState) : ℤ :=
  Int.floor ((pop.population_size : ℚ) * effectiveDeathRate pop cell / (TICKS_PER_YEAR : ℚ))

/-- `updatePopulation` (engine.ts lines 174-259): the per-tick dynamics
update of one population.  The three `Math.random()` draws of the body are
explicit parameters, each in `[0,1)`:
* `rJitter` — the population jitter draw of line 211,
* `rEdu` — the yearly education growth draw of line 228,
* `rTech` — the yearly tech advancement draw of line 234.
The resulting record carries exactly the fields written by the UPDATE of
lines 253-258 (population_size, stability, prosperity, education,
tech_level, ideology_collectivism); every other field is carried over. -/
def updatePopulation (pop : PopulationState) (cell : CellState)
    (neighbors : List PopulationState) (isYearEnd : Bool)
    (rJitter rEdu rTech : ℚ) : PopulationState :=
  let cf := crowdingFactor pop cell
  let netChange := birthsPerTick pop cell - deathsPerTick pop cell
  let newPopulation0 : ℤ := max 0 (pop.population_size + netChange)
  let newPopulation : ℤ := Int.floor ((newPopulation0 : ℚ) * (0.999 + rJitter * 0.002))
  let stability1 := if pop.prosperity < 30 then pop.stability - 0.1 else pop.stability
  let stability2 := if pop.prosperity > 70 then stability1 + 0.05 else stability1
  let newStability := max 0 (min 100 stability2)
  let prosperity1 :=
    if cf < 0.8 ∧ pop.tech_level > 2 then pop.prosperity + 0.05 else pop.prosperity
  let prosperity2 := if cf > 1.2 then prosperity1 - 0.1 else prosperity1
  let newProsperity := max 0 (min 100 prosperity2)
  let newEducation :=
    if isYearEnd ∧ pop.stability > 50 ∧ pop.prosperity > 40 then
      min 100 (pop.education + rEdu * 0.5)
    else pop.education
  let newTechLevel :=
    if isYearEnd ∧ pop.education > ((pop.tech_level : ℚ) + 1) * 10 ∧
        rTech < 0.01 * pop.education / 100 then
      min 9 (pop.tech_level + 1)
    else pop.tech_level
  let avgNeighborCollectivism :=
    if neighbors.length > 0 then
      (neighbors.map (fun n => n.ideology_collectivism)).sum / (neighbors.length : ℚ)
    else pop.ideology_collectivism
  let newCollectivism :=
    pop.ideology_collectivism +
      (avgNeighborCollectivism - pop.ideology_collectivism) * 0.001
  { pop with
    population_size := newPopulation
    stability := newStability
    prosperity := newProsperity
    education := newEducation
    tech_level := newTechLevel
    ideology_collectivism := newCollectivism }

/-! ## Adjacency (engine.ts lines 155-172, `buildNeighborMap`) -/

/-- The fixed 6-direction offset set of `buildNeighborMap` (engine.ts line 161). -/
def directions : List (ℤ × ℤ) := [(-1, 0), (1, 0), (0, -1), (0, 1), (-1, -1), (1, 1)]

/-- The `cellGrid` lookup of `buildNeighborMap` (engine.ts line 157): a JS `Map`
built by inserting every cell keyed by its coordinates, so a later cell with the
same coordinates overwrites an earlier one — hence lookup finds the last match. -/
def gridLookup (cells : List CellState) (x y : ℤ) : Option CellState :=
  cells.reverse.find? (fun c => c.x == x && c.y == y)

/-- The neighbor list `buildNeighborMap` stores under a cell's coordinate key
(engine.ts lines 159-168): for each of the six offsets, the grid entry at the
offset coordinates, when present. -/
def neighborsOf (cells : List CellState) (cell : CellState) : List CellState :=
  directions.filterMap (fun d => gridLookup cells (cell.x + d.1) (cell.y + d.2))

/-- Decidable full-symmetry check of the neighbor relation over a concrete cell
list: every cell of every neighbor list lists the original cell back. -/
def neighborSymCheck (cells : List CellState) : Bool :=
  cells.all (fun a => (neighborsOf cells a).all (fun b =>
    (neighborsOf cells b).any (fun c => c = a)))

/-! ## Conflicts (engine.ts lines 327-375, `processConflicts`) -/

/-- Mean war tendency of the co-located populations (engine.ts line 344). -/
def avgWarTendency (pops : List PopulationState) : ℚ :=
  (pops.map (fun p => p.war_tendency)).sum / (pops.length : ℚ)

/-- Mean xenophobia of the co-located populations (engine.ts line 345). -/
def avgXenophobia (pops : List PopulationState) : ℚ :=
  (pops.map (fun p => p.ideology_xenophobia)).sum / (pops.length : ℚ)

/-- `conflictChance = (avgWarTendency + avgXenophobia) / 200` (engine.ts line 346). -/
def conflictChance (pops : List PopulationState) : ℚ :=
  (avgWarTendency pops + avgXenophobia pops) / 200

/-- The two UPDATE statements of engine.ts lines 354-358: the winner loses
`floor(0.05 * size)` population and 10 stability, the loser loses
`floor(0.15 * size)` population and 20 stability.  The SQL applies the
subtractions directly, with no `GREATEST(0, ...)` clamp. -/
def applyConflict (winner loser : PopulationState) :
    PopulationState × PopulationState :=
  let winnerLosses : ℤ := Int.floor ((winner.population_size : ℚ) * 0.05)
  let loserLosses : ℤ := Int.floor ((loser.population_size : ℚ) * 0.15)
  ({ winner with
      population_size := winner.population_size - winnerLosses
      stability := winner.stability - 10 },
   { loser with
      population_size := loser.population_size - loserLosses
      stability := loser.stability - 20 })

/-- Stable insertion of a population into a size-descending list: `p` is
placed before the first element whose size is `≤` its own.  In
`sortBySizeDesc` below, `p` precedes the already-sorted elements in the
original list, so ties keep their original relative order — matching the
stable (ES2019) JS `sort((a, b) => b.population_size - a.population_size)`. -/
def insertBySizeDesc (p : PopulationState) :
    List PopulationState → List PopulationState
  | [] => [p]
  | q :: rest =>
    if q.population_size ≤ p.population_size then p :: q :: rest
    else q :: insertBySizeDesc p rest

/-- Stable size-descending sort (engine.ts line 350). -/
def sortBySizeDesc : List PopulationState → List PopulationState
  | [] => []
  | p :: rest => insertBySizeDesc p (sortBySizeDesc rest)

/-- Distinct civilization ids among co-located populations
(`[...new Set(pops.map(p => p.civilization_id))]`, engine.ts line 340). -/
def distinctCivs (pops : List PopulationState) : List ℕ :=
  (pops.map (fun p => p.civilization_id)).dedup

/-- One cell's pass of `processConflicts` (engine.ts lines 336-373), with the
`Math.random()` conflict roll an explicit `draw` parameter.  Returns the
(winner, loser) pair as updated by the two UPDATE statements when a conflict
fires, and `none` when fewer than two populations or fewer than two distinct
civilizations share the cell or the roll fails. -/
def processConflictCell (pops : List PopulationState) (draw : ℚ) :
    Option (PopulationState × PopulationState) :=
  if pops.length < 2 then none
  else if (distinctCivs pops).length < 2 then none
  else if draw < conflictChance pops then
    match sortBySizeDesc pops with
    | winner :: loser :: _ => some (applyConflict winner loser)
    | _ => none
  else none

/-! ## Tech diffusion (engine.ts lines 377-403, `processTechSpread`) -/

/-- The firing condition of one diffusion attempt (engine.ts lines 393-396):
the source must be more than one tech level ahead, and the `Math.random()`
draw must beat `spreadChance = 0.001 * techGap`. -/
def techSpreadFires (pop neighborPop : PopulationState) (draw : ℚ) : Prop :=
  pop.tech_level > neighborPop.tech_level + 1 ∧
    draw < 0.001 * ((pop.tech_level : ℚ) - (neighborPop.tech_level : ℚ))

/-- The UPDATE of engine.ts line 397: `education = education + 1`, with no
`LEAST(100, ...)` cap; no other column is touched. -/
def techSpreadUpdate (neighborPop : PopulationState) : PopulationState :=
  { neighborPop with education := neighborPop.education + 1 }

/-! ## Migration (engine.ts lines 268-325, `processMigrations`) -/

/-- `migrants = floor(population_size * 0.1)` (engine.ts line 292). -/
def migrantsOf (pop : PopulationState) : ℤ :=
  Int.floor ((pop.population_size : ℚ) * 0.1)

/-- The candidate filter of engine.ts lines 284-288: neighbor cells that are
not ocean and are either unoccupied, or whose (first found) population is
below half the *source's* carrying capacity `cc`. -/
def migrationCandidates (cc : ℤ) (neighbors : List CellState)
    (populations : List PopulationState) : List CellState :=
  neighbors.filter (fun n =>
    match populations.find? (fun p => p.cell_id == n.id) with
    | none => n.biome ≠ "ocean"
    | some neighborPop =>
      (neighborPop.population_size : ℚ) < (cc : ℚ) * 0.5 ∧ n.biome ≠ "ocean")

/-- Outcome of one population's migration (the DB statements of engine.ts
lines 297-315): either `merge` — add `migrants` to the existing population
found on the target cell — or `settle` — insert a fresh population row.
In both cases the source row is decremented by `migrants`. -/
inductive MigrationOutcome where
  | merge (targetPopId : ℕ) (migrants : ℤ)
  | settle (newPop : PopulationState)
deriving DecidableEq

/-- The fresh population row inserted by engine.ts lines 305-308, including
the column defaults of the `populations` table for the columns the INSERT
does not list.  The DB-generated row id is abstracted as 0. -/
def settlerPop (pop : PopulationState) (targetCellId : ℕ) : PopulationState :=
  { id := 0
    cell_id := targetCellId
    civilization_id := pop.civilization_id
    population_size := migrantsOf pop
    tech_level := max 0 (pop.tech_level - 1)
    stability := 50
    prosperity := 40
    education := pop.education * 0.8
    birth_rate := 0.02
    death_rate := 0.015
    ideology_collectivism := 50
    ideology_tradition := 50
    ideology_authoritarianism := 50
    ideology_xenophobia := 50
    war_tendency := 30
    resource_efficiency := 1
    environmental_impact := 1 }

/-- One population's iteration of `processMigrations` (engine.ts lines
274-324).  `neighbors` is the adjacency entry for the population's cell,
`populations` the point-in-time population list the whole pass reads, and
`pick` the `Math.floor(Math.random() * length)` index into the candidate
list.  Returns the outcome together with the decrement applied to the
source row, or `none` when the population does not migrate. -/
def migrateStep (pop : PopulationState) (cell : CellState)
    (neighbors : List CellState) (populations : List PopulationState)
    (pick : ℕ) : Option (MigrationOutcome × ℤ) :=
  if pop.population_size < 1000 then none
  else
    let cc := calculateCarryingCapacity cell pop.tech_level
    if (pop.population_size : ℚ) < (cc : ℚ) * 0.9 then none
    else
      let cands := migrationCandidates cc neighbors populations
      match cands[pick % cands.length]? with
      | none => none
      | some target =>
        let migrants := migrantsOf pop
        match populations.find? (fun p => p.cell_id == target.id) with
        | some existingPop => some (.merge existingPop.id migrants, migrants)
        | none => some (.settle (settlerPop pop target.id), migrants)

/-! ## Tick scheduler (engine.ts lines 77-138, `tick`)

`tick()` increments the in-memory tick counter (and, on a year boundary, the
year counter) *before* the `try` block, then runs the body — loads, the
per-population pass, the yearly phases, counter persistence, the `tick`/
`yearUpdate` emissions — inside `try { ... } catch { log }`.  Every
`db.query` inside the body commits independently (there is no transaction),
so a thrown exception leaves every mutation already executed in place and
skips everything after the throw point.  We embed the body as the ordered
list of its effectful steps: a `write` is one committed store mutation, an
`emit` one observer notification, and `throwErr` an exception thrown at
that point. -/

/-- The engine's persisted state as the tick body sees it: the world row's
counters and the population table. -/
structure WorldDb where
  db_tick : ℕ
  db_year : ℕ
  pops : List PopulationState
deriving DecidableEq

/-- One effectful step of the tick body. -/
inductive TickStep where
  | write (f : WorldDb → WorldDb)
  | emit (e : String)
  | throwErr

/-- Executes the body's steps in order: each `write` commits immediately,
each `emit` is recorded, and the first `throwErr` aborts the rest (the
exception propagates to `tick()`'s catch, which swallows it). -/
def runBody : List TickStep → WorldDb → List String → WorldDb × List String
  | [], w, es => (w, es)
  | .write f :: rest, w, es => runBody rest (f w) es
  | .emit e :: rest, w, es => runBody rest w (es ++ [e])
  | .throwErr :: _, w, es => (w, es)

/-- Whether the body throws somewhere. -/
def bodyThrows : List TickStep → Bool
  | [] => false
  | .throwErr :: _ => true
  | .write _ :: rest => bodyThrows rest
  | .emit _ :: rest => bodyThrows rest

/-- The scheduler's in-memory counters plus the store and the notifications
sent so far. -/
structure EngineState where
  currentTick : ℕ
  currentYear : ℕ
  world : WorldDb
  emitted : List String
deriving DecidableEq

/-- One firing of `tick()` (engine.ts lines 77-138): increment the tick
counter, compute `isYearEnd = tick % TICKS_PER_YEAR == 0`, increment the
year counter on a year boundary — all before the `try` — then run the body
(supplied as its step list, which may depend on the new counters and the
year flag); any exception inside the body is caught and swallowed, so the
function is total and the loop continues at the next firing. -/
def tickOnce (body : ℕ → ℕ → Bool → List TickStep) (s : EngineState) :
    EngineState :=
  let t := s.currentTick + 1
  let isYearEnd := t % TICKS_PER_YEAR == 0
  let y := if isYearEnd then s.currentYear + 1 else s.currentYear
  let (w, es) := runBody (body t y isYearEnd) s.world s.emitted
  { currentTick := t, currentYear := y, world := w, emitted := es }

/-! ## Experiments (engine.ts lines 492-708) -/

/-- The result value an experiment handler returns: a success flag plus the
payload.  The initial value at the top of `executeExperiment` is the bare
`{ success: false }` with no payload. -/
inductive ExpPayload where
  | message (s : String)
  | casualties (lethality : ℚ)
deriving DecidableEq

/-- `{ success, message/casualties }` as built by the handlers. -/
structure ExpResult where
  success : Bool
  payload : Option ExpPayload
deriving DecidableEq

/-- A pending experiment row as `executeExperiment` reads it.  Of the JSONB
`parameters` only the fields the handlers access are modelled, each
optional (absent in the JSON ⇒ `none`). -/
structure Experiment where
  id : ℕ
  player_id : ℕ
  category : String
  type : String
  target_id : ℕ
  param_species_id : Option ℕ
  param_lethality : Option ℚ
  param_axis : Option String
  param_direction : Option ℚ
deriving DecidableEq

/-- One SQL statement issued by an experiment handler, with the parameters
it binds.  Each constructor stands for the fixed-magnitude UPDATE/INSERT of
the corresponding `case` of engine.ts lines 549-674. -/
inductive ExpDbStatement where
  | seedSpecies (cellId : ℕ) (speciesId : Option ℕ)
  | pandemic (lethality : ℚ) (cellId : ℕ)
  | uplift (cellId : ℕ)
  | giftKnowledge (cellId : ℕ)
  | ideologyNudge (axis : String) (direction : ℚ) (cellId : ℕ)
  | propheticVision (cellId : ℕ)
  | meteor (cellId : ℕ)
  | supervolcano (cellId : ℕ)
  | cropCircles (cellId : ℕ)
  | miracle (cellId : ℕ)
deriving DecidableEq

/-- `executeBiologicalExperiment` (engine.ts lines 549-573). -/
def executeBiologicalExperiment (exp : Experiment) :
    ExpResult × List ExpDbStatement :=
  if exp.type = "seed_species" then
    (⟨true, some (.message "Species introduced successfully")⟩,
     [.seedSpecies exp.target_id exp.param_species_id])
  else if exp.type = "pandemic" then
    -- `exp.parameters.lethality || 0.1`: JS `||` falls back to the default
    -- both when the field is absent and when it is the falsy number 0.
    let lethality :=
      match exp.param_lethality with
      | none => 0.1
      | some v => if v = 0 then 0.1 else v
    (⟨true, some (.casualties lethality)⟩, [.pandemic lethality exp.target_id])
  else (⟨false, some (.message "Unknown biological experiment")⟩, [])

/-- `executeTechnologicalExperiment` (engine.ts lines 575-597). -/
def executeTechnologicalExperiment (exp : Experiment) :
    ExpResult × List ExpDbStatement :=
  if exp.type = "uplift" then
    (⟨true, some (.message "Technology uplifted!")⟩, [.uplift exp.target_id])
  else if exp.type = "gift_knowledge" then
    (⟨true, some (.message "Knowledge gifted")⟩, [.giftKnowledge exp.target_id])
  else (⟨false, some (.message "Unknown tech experiment")⟩, [])

/-- `executeSociopoliticalExperiment` (engine.ts lines 599-622). -/
def executeSociopoliticalExperiment (exp : Experiment) :
    ExpResult × List ExpDbStatement :=
  if exp.type = "ideology_nudge" then
    -- `parameters.axis || 'collectivism'` and `parameters.direction || 5`:
    -- JS `||` also replaces the falsy present values "" and 0.
    let axis :=
      match exp.param_axis with
      | none => "collectivism"
      | some s => if s = "" then "collectivism" else s
    let direction :=
      match exp.param_direction with
      | none => 5
      | some v => if v = 0 then 5 else v
    (⟨true, some (.message ("Ideology shifted toward " ++ axis))⟩,
     [.ideologyNudge axis direction exp.target_id])
  else if exp.type = "prophetic_vision" then
    (⟨true, some (.message "Visions have been sent")⟩,
     [.propheticVision exp.target_id])
  else (⟨false, some (.message "Unknown sociopolitical experiment")⟩, [])

/-- `executeCatastrophicExperiment` (engine.ts lines 624-649). -/
def executeCatastrophicExperiment (exp : Experiment) :
    ExpResult × List ExpDbStatement :=
  if exp.type = "meteor" then
    (⟨true, some (.message "Impact successful. Destruction: catastrophic.")⟩,
     [.meteor exp.target_id])
  else if exp.type = "supervolcano" then
    (⟨true, some (.message "Volcanic winter initiated")⟩,
     [.supervolcano exp.target_id])
  else (⟨false, some (.message "Unknown catastrophic experiment")⟩, [])

/-- `executePlayfulExperiment` (engine.ts lines 651-674). -/
def executePlayfulExperiment (exp : Experiment) :
    ExpResult × List ExpDbStatement :=
  if exp.type = "crop_circles" then
    (⟨true, some (.message "Mysterious patterns appeared. Locals are confused.")⟩,
     [.cropCircles exp.target_id])
  else if exp.type = "miracle" then
    (⟨true, some (.message "A miracle occurred! Faith increased.")⟩,
     [.miracle exp.target_id])
  else (⟨false, some (.message "Unknown playful experiment")⟩, [])

/-- The per-category reputation weights of `updatePlayerReputation`
(engine.ts lines 679-699), as (benevolence, mischief, curiosity), starting
from the base `(0, 0, 1)`. -/
def reputationDelta (category : String) : ℤ × ℤ × ℤ :=
  if category = "biological" then (0, 0, 3)
  else if category = "technological" then (2, 0, 1)
  else if category = "catastrophic" then (-2, 5, 1)
  else if category = "playful" then (0, 2, 3)
  else if category = "sociopolitical" then (0, 0, 2)
  else (0, 0, 1)

/-- `updatePlayerReputation` (engine.ts lines 676-708): returns early —
issuing no UPDATE at all — when the result is not a success, otherwise
applies the category-keyed deltas to the player's row. -/
def updatePlayerReputation (category : String) (result : ExpResult) :
    Option (ℤ × ℤ × ℤ) :=
  if result.success then some (reputationDelta category) else none

/-- What `executeExperiment` leaves behind for one experiment. -/
structure ExecOutcome where
  status : String
  result : ExpResult
  repDelta : Option (ℤ × ℤ × ℤ)
  statements : List ExpDbStatement
deriving DecidableEq

/-- `executeExperiment` (engine.ts lines 503-547): dispatch on category (an
unknown category leaves the initial `{ success: false }` untouched), mark
the experiment `resolved` with the result, and update the player's
reputation (a no-op for unsuccessful results).  The handlers themselves
never throw, so the catch branch that would mark the experiment `failed`
is not reached. -/
def executeExperiment (exp : Experiment) : ExecOutcome :=
  let (result, statements) :=
    if exp.category = "biological" then executeBiologicalExperiment exp
    else if exp.category = "technological" then executeTechnologicalExperiment exp
    else if exp.category = "sociopolitical" then executeSociopoliticalExperiment exp
    else if exp.category = "catastrophic" then executeCatastrophicExperiment exp
    else if exp.category = "playful" then executePlayfulExperiment exp
    else (⟨false, none⟩, [])
  { status := "resolved"
    result := result
    repDelta := updatePlayerReputation exp.category result
    statements := statements }

/-- The known experiment types of each known category (the non-default
`case` labels of the five handler switches). -/
def knownTypes (category : String) : List String :=
  if category = "biological" then ["seed_species", "pandemic"]
  else if category = "technological" then ["uplift", "gift_knowledge"]
  else if category = "sociopolitical" then ["ideology_nudge", "prophetic_vision"]
  else if category = "catastrophic" then ["meteor", "supervolcano"]
  else if category = "playful" then ["crop_circles", "miracle"]
  else []

/-- The message string of each handler's default branch. -/
def unknownTypeMessage (category : String) : String :=
  if category = "biological" then "Unknown biological experiment"
  else if category = "technological" then "Unknown tech experiment"
  else if category = "sociopolitical" then "Unknown sociopolitical experiment"
  else if category = "catastrophic" then "Unknown catastrophic experiment"
  else "Unknown playful experiment"

/-! ## Concrete instances used by the witnesses and counterexamples below -/

/-- A population row with the `populations` table's column defaults for the
traits (`birth_rate 0.02`, `death_rate 0.015`, ideologies 50,
`war_tendency 30`, `resource_efficiency 1`, `environmental_impact 1`). -/
def basePop (id cell_id civ : ℕ) (size tech : ℤ) (stab pros edu : ℚ) :
    PopulationState :=
  { id := id
    cell_id := cell_id
    civilization_id := civ
    population_size := size
    tech_level := tech
    stability := stab
    prosperity := pros
    education := edu
    birth_rate := 0.02
    death_rate := 0.015
    ideology_collectivism := 50
    ideology_tradition := 50
    ideology_authoritarianism := 50
    ideology_xenophobia := 50
    war_tendency := 30
    resource_efficiency := 1
    environmental_impact := 1 }

/-- The grassland cell of the spec's dynamics scenario: `food_capacity 100`,
`temperature 20`. -/
def grasslandCell : CellState :=
  { id := 0, x := 0, y := 0, biome := "grassland", food_capacity := 100,
    temperature := 20, moisture := 50 }

/-- The population of the spec's dynamics scenario: size 5000,
`birth_rate 0.02`, `death_rate 0.015`, prosperity 50, tech 0. -/
def scenarioPop : PopulationState := basePop 1 0 0 5000 0 50 50 10

/-- A cell with `food_capacity = 0` — a valid row, the column is an INTEGER
with no positivity constraint — whose carrying capacity is 0. -/
def barrenCell : CellState :=
  { id := 2, x := 5, y := 5, biome := "ocean", food_capacity := 0,
    temperature := 10, moisture := 80 }

/-- A population sitting on `barrenCell`. -/
def barrenPop : PopulationState := basePop 3 2 0 5000 0 50 50 10

/-- Conflict demo, civilization 1: size 5000, stability 5, war tendency 80,
xenophobia 60. -/
def conflictPopA : PopulationState :=
  { basePop 10 5 1 5000 0 5 50 10 with
    war_tendency := 80, ideology_xenophobia := 60 }

/-- Conflict demo, civilization 2: size 3000, stability 50, war tendency 80,
xenophobia 60. -/
def conflictPopB : PopulationState :=
  { basePop 11 5 2 3000 0 50 50 10 with
    war_tendency := 80, ideology_xenophobia := 60 }

/-- A population with education exactly 100, fed to the tech-diffusion
update. -/
def eduCapPop : PopulationState := basePop 12 6 1 2000 2 60 50 100

/-- Second conflict demo (for C4), civilization 3: size 4000, stability 8,
war tendency 90, xenophobia 70. -/
def conflictPopC : PopulationState :=
  { basePop 13 7 3 4000 0 8 50 10 with
    war_tendency := 90, ideology_xenophobia := 70 }

/-- Second conflict demo (for C4), civilization 4: size 1000, stability 15,
war tendency 90, xenophobia 70. -/
def conflictPopD : PopulationState :=
  { basePop 14 7 4 1000 0 15 50 10 with
    war_tendency := 90, ideology_xenophobia := 70 }

/-- Migration demo source cell: grassland, `food_capacity 8`, so with tech 3
the carrying capacity is `floor(8*100*2.5) = 2000`. -/
def migSourceCell : CellState :=
  { id := 7, x := 0, y := 0, biome := "grassland", food_capacity := 8,
    temperature := 15, moisture := 50 }

/-- Migration demo target cell, adjacent to the source. -/
def migTargetCell : CellState :=
  { id := 8, x := 1, y := 0, biome := "grassland", food_capacity := 8,
    temperature := 15, moisture := 50 }

/-- Migration demo source population: civilization 1, size 2000 = its
carrying capacity, tech 3 — crowded enough to migrate. -/
def migSourcePop : PopulationState := basePop 20 7 1 2000 3 60 50 50

/-- Migration demo: a *different* civilization's population already on the
target cell, small enough (500 < 0.5 * 2000) to keep the cell a candidate. -/
def migForeignPop : PopulationState := basePop 21 8 2 500 1 60 50 20

/-- The cell at the origin of the demo grid below. -/
def demoCellA : CellState :=
  { id := 30, x := 0, y := 0, biome := "grassland", food_capacity := 100,
    temperature := 20, moisture := 50 }

/-- The cell one step in +x from `demoCellA`. -/
def demoCellB : CellState :=
  { id := 31, x := 1, y := 0, biome := "grassland", food_capacity := 100,
    temperature := 20, moisture := 50 }

/-- A 3-by-3 grid of grassland cells with distinct coordinates, used to
check the neighbor relation concretely. -/
def demoGrid : List CellState :=
  [demoCellA, demoCellB,
   ⟨32, 2, 0, "grassland", 100, 20, 50⟩, ⟨33, 0, 1, "grassland", 100, 20, 50⟩,
   ⟨34, 1, 1, "grassland", 100, 20, 50⟩, ⟨35, 2, 1, "grassland", 100, 20, 50⟩,
   ⟨36, 0, 2, "grassland", 100, 20, 50⟩, ⟨37, 1, 2, "grassland", 100, 20, 50⟩,
   ⟨38, 2, 2, "grassland", 100, 20, 50⟩]

/-- The tick body used to exhibit a partially applied failed tick: one
population-update write (the per-population pass), then an exception (a
later phase failing). -/
def demoFailingBody (_t _y : ℕ) (isYearEnd : Bool) : List TickStep :=
  [.write (fun w =>
      { w with pops := w.pops.map fun p =>
          updatePopulation p grasslandCell [] isYearEnd 0 0 1 }),
   .throwErr]

/-- A tick body that throws before performing any effect (e.g. the initial
`getPopulations` query failing). -/
def demoThrowFirstBody (_t _y : ℕ) (_isYearEnd : Bool) : List TickStep :=
  [.throwErr]

/-- Initial engine state for the failed-tick demonstration: fresh counters,
one population, nothing emitted. -/
def demoEngineState : EngineState :=
  { currentTick := 0, currentYear := 0,
    world := { db_tick := 0, db_year := 0, pops := [scenarioPop] },
    emitted := [] }

/-- An experiment with a known category and an unrecognized type. -/
def demoUnknownExp : Experiment :=
  { id := 40, player_id := 41, category := "biological", type := "transmute",
    target_id := 42, param_species_id := none, param_lethality := none,
    param_axis := none, param_direction := none }

/-! ## Event effects (engine.ts lines 440-468)

The three event handlers issue one UPDATE each over the targeted
populations.  All of them clamp with SQL `GREATEST`/`LEAST`.  The
`population_size` column is a BIGINT, so the numeric expression the UPDATE
assigns is rounded on assignment; the operand is already clamped `≥ 0`, so
this is `round` of a non-negative rational. -/

/-- `applyGoldenAge` (engine.ts lines 440-447), per targeted population:
`prosperity = LEAST(100, prosperity + 0.5)`,
`education = LEAST(100, education + 0.2)`. -/
def applyGoldenAge (p : PopulationState) : PopulationState :=
  { p with
    prosperity := min 100 (p.prosperity + 0.5)
    education := min 100 (p.education + 0.2) }

/-- `applyFamine` (engine.ts lines 449-459), per targeted population:
`population_size = GREATEST(0, population_size * 0.99)`,
`prosperity = GREATEST(0, prosperity - 1)`,
`stability = GREATEST(0, stability - 0.5)`. -/
def applyFamine (p : PopulationState) : PopulationState :=
  { p with
    population_size := round (max 0 ((p.population_size : ℚ) * 0.99))
    prosperity := max 0 (p.prosperity - 1)
    stability := max 0 (p.stability - 0.5) }

/-- `applyPlague` (engine.ts lines 461-468), per targeted population:
`population_size = GREATEST(0, population_size * 0.95)`. -/
def applyPlague (p : PopulationState) : PopulationState :=
  { p with population_size := round (max 0 ((p.population_size : ℚ) * 0.95)) }

/-! ## Experiment effect semantics (engine.ts lines 549-674) -/

/-- The `ideology_${axis}` column update of the `ideology_nudge` UPDATE
(engine.ts lines 604-607): `GREATEST(0, LEAST(100, ideology_axis + $1))` on
the interpolated column.  Only the four ideology columns exist; for any
other axis string the interpolated SQL names a non-existent column and the
query throws (caught by `executeExperiment`, which then marks the
experiment `failed`), so no population row changes — modelled as the
identity. -/
def nudgeAxis (axis : String) (direction : ℚ) (p : PopulationState) :
    PopulationState :=
  if axis = "collectivism" then
    { p with ideology_collectivism := max 0 (min 100 (p.ideology_collectivism + direction)) }
  else if axis = "tradition" then
    { p with ideology_tradition := max 0 (min 100 (p.ideology_tradition + direction)) }
  else if axis = "authoritarianism" then
    { p with ideology_authoritarianism := max 0 (min 100 (p.ideology_authoritarianism + direction)) }
  else if axis = "xenophobia" then
    { p with ideology_xenophobia := max 0 (min 100 (p.ideology_xenophobia + direction)) }
  else p

/-- Per-population semantics of the UPDATE carried by each experiment
statement, transcribing the SQL of the corresponding `case` of engine.ts
lines 549-674 (`GREATEST`/`LEAST` as `max`/`min`, BIGINT assignment of the
clamped size expressions as `round`).  `seedSpecies` inserts into
`cell_species` and touches no population row. -/
def applyExpStatement (st : ExpDbStatement) (p : PopulationState) :
    PopulationState :=
  match st with
  | .seedSpecies _ _ => p
  | .pandemic lethality _ =>
      { p with population_size :=
          round (max 0 ((p.population_size : ℚ) * (1 - lethality))) }
  | .uplift _ =>
      { p with
        tech_level := min 9 (p.tech_level + 1)
        stability := max 0 (p.stability - 10)
        education := min 100 (p.education + 20) }
  | .giftKnowledge _ => { p with education := min 100 (p.education + 30) }
  | .ideologyNudge axis direction _ => nudgeAxis axis direction p
  | .propheticVision _ =>
      { p with
        ideology_tradition := max 0 (min 100 (p.ideology_tradition + 15))
        stability := max 0 (p.stability - 5) }
  | .meteor _ =>
      { p with
        population_size := round (max 0 ((p.population_size : ℚ) * 0.3))
        stability := 0
        prosperity := 0 }
  | .supervolcano _ =>
      { p with
        population_size := round (max 0 ((p.population_size : ℚ) * 0.5))
        prosperity := max 0 (p.prosperity - 50) }
  | .cropCircles _ =>
      { p with
        ideology_tradition := min 100 (p.ideology_tradition + 5)
        stability := max 0 (p.stability - 2) }
  | .miracle _ =>
      { p with
        prosperity := min 100 (p.prosperity + 10)
        ideology_tradition := min 100 (p.ideology_tradition + 10) }

/-- The numeric bounds the spec claims for every population after any
update: `population_size ≥ 0`, stability/prosperity/education in
`[0, 100]`, tech_level in `[0, 9]`. -/
def ClaimedBounds (p : PopulationState) : Prop :=
  0 ≤ p.population_size ∧
  0 ≤ p.stability ∧ p.stability ≤ 100 ∧
  0 ≤ p.prosperity ∧ p.prosperity ≤ 100 ∧
  0 ≤ p.education ∧ p.education ≤ 100 ∧
  0 ≤ p.tech_level ∧ p.tech_level ≤ 9

/-! ## Helper lemmas -/

lemma round_max_nonneg (x : ℚ) : 0 ≤ round (max 0 x) := by
  rw [round_eq]
  refine Int.floor_nonneg.mpr ?_
  have := le_max_left (0 : ℚ) x
  linarith

lemma biome_grassland_ne_ocean : ("grassland" : String) ≠ "ocean" := by decide

lemma biome_grassland_ne_desert : ("grassland" : String) ≠ "desert" := by decide

lemma floor_mul_le_self (n : ℤ) (hn : 0 ≤ n) (c : ℚ) (hc1 : c ≤ 1) :
    Int.floor ((n : ℚ) * c) ≤ n := by
  have h1 : (n : ℚ) * c ≤ (n : ℚ) := by
    calc (n : ℚ) * c ≤ (n : ℚ) * 1 :=
          mul_le_mul_of_nonneg_left hc1 (by exact_mod_cast hn)
    _ = (n : ℚ) := mul_one _
  calc Int.floor ((n : ℚ) * c) ≤ Int.floor ((n : ℚ) : ℚ) := Int.floor_le_floor h1
  _ = n := Int.floor_intCast n

/-! ## C10 — the per-tick dynamics update writes only the six listed fields -/

/-- C10: `updatePopulation` writes only population_size, stability,
prosperity, education, tech_level and ideology_collectivism; the row id and
cell/civilization references, birth_rate, death_rate, war_tendency,
resource_efficiency, environmental_impact, ideology_tradition,
ideology_authoritarianism and ideology_xenophobia are unchanged for every
population, cell, neighbor list, year flag and random draws. -/
theorem C10_dynamics_frame (pop : PopulationState) (cell : CellState)
    (neighbors : List PopulationState) (isYearEnd : Bool) (rJitter rEdu rTech : ℚ) :
    (updatePopulation pop cell neighbors isYearEnd rJitter rEdu rTech).id = pop.id ∧
    (updatePopulation pop cell neighbors isYearEnd rJitter rEdu rTech).cell_id = pop.cell_id ∧
    (updatePopulation pop cell neighbors isYearEnd rJitter rEdu rTech).civilization_id = pop.civilization_id ∧
    (updatePopulation pop cell neighbors isYearEnd rJitter rEdu rTech).birth_rate = pop.birth_rate ∧
    (updatePopulation pop cell neighbors isYearEnd rJitter rEdu rTech).death_rate = pop.death_rate ∧
    (updatePopulation pop cell neighbors isYearEnd rJitter rEdu rTech).war_tendency = pop.war_tendency ∧
    (updatePopulation pop cell neighbors isYearEnd rJitter rEdu rTech).resource_efficiency = pop.resource_efficiency ∧
    (updatePopulation pop cell neighbors isYearEnd rJitter rEdu rTech).environmental_impact = pop.environmental_impact ∧
    (updatePopulation pop cell neighbors isYearEnd rJitter rEdu rTech).ideology_tradition = pop.ideology_tradition ∧
    (updatePopulation pop cell neighbors isYearEnd rJitter rEdu rTech).ideology_authoritarianism = pop.ideology_authoritarianism ∧
    (updatePopulation pop cell neighbors isYearEnd rJitter rEdu rTech).ideology_xenophobia = pop.ideology_xenophobia :=
  ⟨rfl, rfl, rfl, rfl, rfl, rfl, rfl, rfl, rfl, rfl, rfl⟩

/-! ## C7 — tech_level is non-decreasing under dynamics and diffusion -/

/-- C7: a `updatePopulation` step never lowers the tech level of a
population whose tech level satisfies the data-model bound `≤ 9` (the
advancement branch writes `min(9, tech_level + 1)`), and a tech-diffusion
update leaves tech_level unchanged altogether (it only touches education). -/
theorem C7_tech_monotone :
    (∀ (pop : PopulationState) (cell : CellState)
        (neighbors : List PopulationState) (isYearEnd : Bool) (rJ rE rT : ℚ),
      pop.tech_level ≤ 9 →
      pop.tech_level ≤
        (updatePopulation pop cell neighbors isYearEnd rJ rE rT).tech_level) ∧
    (∀ p : PopulationState, (techSpreadUpdate p).tech_level = p.tech_level) := by
  constructor
  · intro pop cell neighbors isYearEnd rJ rE rT h9
    simp only [updatePopulation]
    split
    · exact le_min h9 (by omega)
    · exact le_refl _
  · intro p
    rfl

/-- Witness for C7 at the dynamics scenario population. -/
theorem C7_tech_monotone_witness :
    scenarioPop.tech_level ≤
      (updatePopulation scenarioPop grasslandCell [] false 0 0 1).tech_level :=
  C7_tech_monotone.1 scenarioPop grasslandCell [] false 0 0 1
    (by norm_num [scenarioPop, basePop])

/-! ## C6 — the per-tick dynamics scenario -/

/-- C6: for the grassland scenario (population 5000, birth_rate 0.02,
death_rate 0.015, prosperity 50, tech 0, food_capacity 100, temperature 20)
the dynamics compute carryingCapacity 10000, crowding 0.5 (below the
penalty threshold), effectiveBirthRate 0.02, effectiveDeathRate 0.015,
births 1, deaths 1, net 0, and the new population size is
`floor(5000 * j)` for the jitter `j = 0.999 + r*0.002 ∈ [0.999, 1.001]`
determined by the random draw `r ∈ [0,1)` — hence within ±0.1% of 5000. -/
theorem C6_dynamics_scenario (r rE rT : ℚ) (hr0 : 0 ≤ r) (hr1 : r < 1) :
    calculateCarryingCapacity grasslandCell scenarioPop.tech_level = 10000 ∧
    crowdingFactor scenarioPop grasslandCell = 0.5 ∧
    effectiveBirthRate scenarioPop grasslandCell = 0.02 ∧
    effectiveDeathRate scenarioPop grasslandCell = 0.015 ∧
    birthsPerTick scenarioPop grasslandCell = 1 ∧
    deathsPerTick scenarioPop grasslandCell = 1 ∧
    birthsPerTick scenarioPop grasslandCell
      - deathsPerTick scenarioPop grasslandCell = 0 ∧
    (updatePopulation scenarioPop grasslandCell [] false r rE rT).population_size
      = Int.floor ((5000 : ℚ) * (0.999 + r * 0.002)) ∧
    (0.999 : ℚ) ≤ 0.999 + r * 0.002 ∧ (0.999 + r * 0.002 : ℚ) ≤ 1.001 ∧
    4995 ≤ (updatePopulation scenarioPop grasslandCell [] false r rE rT).population_size ∧
    (updatePopulation scenarioPop grasslandCell [] false r rE rT).population_size ≤ 5005 := by
  have hsize : (updatePopulation scenarioPop grasslandCell [] false r rE rT).population_size
      = Int.floor ((5000 : ℚ) * (0.999 + r * 0.002)) := by
    simp only [updatePopulation]
    norm_num [birthsPerTick, deathsPerTick, effectiveBirthRate, effectiveDeathRate,
      crowdingFactor, calculateCarryingCapacity, grasslandCell, scenarioPop, basePop,
      TICKS_PER_YEAR, if_neg biome_grassland_ne_ocean, if_neg biome_grassland_ne_desert,
      max_def, min_def]
  refine ⟨?_, ?_, ?_, ?_, ?_, ?_, ?_, hsize, by linarith, by linarith, ?_, ?_⟩
  · norm_num [calculateCarryingCapacity, grasslandCell, scenarioPop, basePop,
      if_neg biome_grassland_ne_ocean, if_neg biome_grassland_ne_desert]
  · norm_num [crowdingFactor, calculateCarryingCapacity, grasslandCell, scenarioPop,
      basePop, if_neg biome_grassland_ne_ocean, if_neg biome_grassland_ne_desert]
  · norm_num [effectiveBirthRate, crowdingFactor, calculateCarryingCapacity,
      grasslandCell, scenarioPop, basePop, if_neg biome_grassland_ne_ocean,
      if_neg biome_grassland_ne_desert]
  · norm_num [effectiveDeathRate, crowdingFactor, calculateCarryingCapacity,
      grasslandCell, scenarioPop, basePop, if_neg biome_grassland_ne_ocean,
      if_neg biome_grassland_ne_desert]
  · norm_num [birthsPerTick, effectiveBirthRate, crowdingFactor,
      calculateCarryingCapacity, grasslandCell, scenarioPop, basePop, TICKS_PER_YEAR,
      if_neg biome_grassland_ne_ocean, if_neg biome_grassland_ne_desert]
  · norm_num [deathsPerTick, effectiveDeathRate, crowdingFactor,
      calculateCarryingCapacity, grasslandCell, scenarioPop, basePop, TICKS_PER_YEAR,
      if_neg biome_grassland_ne_ocean, if_neg biome_grassland_ne_desert]
  · norm_num [birthsPerTick, deathsPerTick, effectiveBirthRate, effectiveDeathRate,
      crowdingFactor, calculateCarryingCapacity, grasslandCell, scenarioPop, basePop,
      TICKS_PER_YEAR, if_neg biome_grassland_ne_ocean, if_neg biome_grassland_ne_desert]
  · rw [hsize]
    refine Int.le_floor.mpr ?_
    push_cast
    nlinarith
  · rw [hsize]
    have hx : (5000 : ℚ) * (0.999 + r * 0.002) ≤ 5005 := by nlinarith
    calc Int.floor ((5000 : ℚ) * (0.999 + r * 0.002))
        ≤ Int.floor ((5005 : ℚ)) := Int.floor_le_floor hx
    _ = 5005 := by norm_num

/-- Witness for C6 at the jitter draw `r = 1/2`. -/
theorem C6_dynamics_scenario_witness :
    (0 : ℚ) ≤ 1/2 ∧ (1/2 : ℚ) < 1 ∧
      (updatePopulation scenarioPop grasslandCell [] false (1/2) 0 1).population_size
        = Int.floor ((5000 : ℚ) * (0.999 + (1/2) * 0.002)) :=
  ⟨by norm_num, by norm_num,
    (C6_dynamics_scenario (1/2) 0 1 (by norm_num) (by norm_num)).2.2.2.2.2.2.2.1⟩

/-! ## C9 — the crowding divisor -/

/-- C9: the crowding factor divides by `calculateCarryingCapacity` with no
guard.  The divisor is positive for every cell with `food_capacity ≥ 1`
(for any data-model tech level `≥ 0`), but a valid cell with
`food_capacity = 0` yields carrying capacity 0, and there the defining
equation `q * capacity = population_size` of the quotient has no solution,
so `updatePopulation` is meaningful only under the precondition
`carryingCapacity > 0`. -/
theorem C9_crowding_divisor :
    (∀ (cell : CellState) (techLevel : ℤ), 0 ≤ techLevel →
      1 ≤ cell.food_capacity → 0 < calculateCarryingCapacity cell techLevel) ∧
    calculateCarryingCapacity barrenCell barrenPop.tech_level = 0 ∧
    ¬ ∃ q : ℚ,
      q * ((calculateCarryingCapacity barrenCell barrenPop.tech_level : ℤ) : ℚ)
        = (barrenPop.population_size : ℚ) := by
  have hzero : calculateCarryingCapacity barrenCell barrenPop.tech_level = 0 := by
    norm_num [calculateCarryingCapacity, barrenCell, barrenPop, basePop]
  refine ⟨?_, hzero, ?_⟩
  · intro cell t ht hfc
    have htm : (1 : ℚ) ≤ 1 + (t : ℚ) * 0.5 := by
      have : (0 : ℚ) ≤ (t : ℚ) := by exact_mod_cast ht
      nlinarith
    rw [calculateCarryingCapacity]
    have hgoal : ∀ bm : ℚ, (1 : ℚ)/10 ≤ bm →
        0 < Int.floor (cell.food_capacity * 100 * (1 + (t : ℚ) * 0.5) * bm) := by
      intro bm hbm
      have hfc' : (100 : ℚ) ≤ cell.food_capacity * 100 := by linarith
      have hmid : (100 : ℚ) * 1 ≤ cell.food_capacity * 100 * (1 + (t : ℚ) * 0.5) :=
        mul_le_mul hfc' htm (by norm_num) (by linarith)
      have hx' : (100 : ℚ) * (1/10) ≤
          cell.food_capacity * 100 * (1 + (t : ℚ) * 0.5) * bm :=
        mul_le_mul (by linarith) hbm (by norm_num) (by linarith)
      have hx : (1 : ℚ) ≤ cell.food_capacity * 100 * (1 + (t : ℚ) * 0.5) * bm := by
        linarith
      have := Int.le_floor.mpr (by exact_mod_cast hx :
        ((1 : ℤ) : ℚ) ≤ cell.food_capacity * 100 * (1 + (t : ℚ) * 0.5) * bm)
      omega
    split_ifs with h1 h2
    · exact hgoal _ (by norm_num)
    · exact hgoal _ (by norm_num)
    · exact hgoal _ (by norm_num)
  · rintro ⟨q, hq⟩
    rw [hzero] at hq
    norm_num [barrenPop, basePop] at hq

/-- Witness for C9's positivity clause at the scenario's grassland cell. -/
theorem C9_crowding_divisor_witness :
    (0 : ℤ) ≤ 0 ∧ (1 : ℚ) ≤ grasslandCell.food_capacity ∧
      0 < calculateCarryingCapacity grasslandCell 0 :=
  ⟨le_refl 0, by norm_num [grasslandCell],
    C9_crowding_divisor.1 grasslandCell 0 (le_refl 0) (by norm_num [grasslandCell])⟩

/-! ## C1 — numeric bounds after engine updates

The claim fails on the code: the conflict UPDATEs (engine.ts lines 357-358)
subtract 10/20 stability with no floor, and the tech-diffusion UPDATE
(line 397) adds 1 to education with no cap. -/

/-- C1 counterexample: in a conflict between `conflictPopA` (size 5000,
stability 5) and `conflictPopB` (size 3000, stability 50), with
conflictChance `(80+60)/200 = 0.7` and roll 1/2, the winner ends with
stability `-5 < 0`; and the tech-diffusion update on a population with
education 100 yields education `101 > 100` — both violating the claimed
bounds. -/
theorem C1_bounds_counterexample :
    ((processConflictCell [conflictPopA, conflictPopB] (1/2)).map
        (fun pr => (pr.1.population_size, pr.1.stability,
                    pr.2.population_size, pr.2.stability)))
      = some (4750, -5, 2550, 30) ∧
    ((-5 : ℚ) < 0) ∧
    (techSpreadUpdate eduCapPop).education = 101 ∧ ((100 : ℚ) < 101) := by
  have hsort : sortBySizeDesc [conflictPopA, conflictPopB]
      = [conflictPopA, conflictPopB] := by
    norm_num [sortBySizeDesc, insertBySizeDesc, conflictPopA, conflictPopB, basePop]
  have hlen : ¬ (([conflictPopA, conflictPopB] : List PopulationState).length < 2) := by
    norm_num
  have hciv : ¬ ((distinctCivs [conflictPopA, conflictPopB]).length < 2) := by decide
  have hchance : (1/2 : ℚ) < conflictChance [conflictPopA, conflictPopB] := by
    norm_num [conflictChance, avgWarTendency, avgXenophobia, conflictPopA,
      conflictPopB, basePop]
  refine ⟨?_, by norm_num, ?_, by norm_num⟩
  · rw [processConflictCell, if_neg hlen, if_neg hciv, if_pos hchance, hsort]
    norm_num [applyConflict, conflictPopA, conflictPopB, basePop]
  · norm_num [techSpreadUpdate, eduCapPop, basePop]

/-- C1 amended: (a) the per-tick dynamics update preserves all the claimed
bounds (population_size ≥ 0, stability/prosperity/education in `[0,100]`,
tech_level in `[0,9]`); (b) conflict resolution keeps both participants'
population_size ≥ 0 but subtracts exactly 10 (winner) / 20 (loser)
stability with *no* floor at 0, so stability can go negative; (c) the
tech-diffusion update adds exactly 1 to education with *no* cap at 100,
touching nothing else, so education can exceed 100; (d) migration keeps
the source's size ≥ 0 and the newly settled population satisfies all the
bounds; (e) every event effect (golden age, famine, plague) preserves all
the bounds, via its `GREATEST`/`LEAST` clamps; (f) every experiment effect
preserves all the bounds, via its `GREATEST`/`LEAST` clamps. -/
theorem C1_bounds_amended :
    (∀ (pop : PopulationState) (cell : CellState)
        (neighbors : List PopulationState) (isYearEnd : Bool) (rJ rE rT : ℚ),
      0 ≤ rJ → 0 ≤ rE →
      0 ≤ pop.education → pop.education ≤ 100 →
      0 ≤ pop.tech_level → pop.tech_level ≤ 9 →
      0 ≤ (updatePopulation pop cell neighbors isYearEnd rJ rE rT).population_size ∧
      0 ≤ (updatePopulation pop cell neighbors isYearEnd rJ rE rT).stability ∧
      (updatePopulation pop cell neighbors isYearEnd rJ rE rT).stability ≤ 100 ∧
      0 ≤ (updatePopulation pop cell neighbors isYearEnd rJ rE rT).prosperity ∧
      (updatePopulation pop cell neighbors isYearEnd rJ rE rT).prosperity ≤ 100 ∧
      0 ≤ (updatePopulation pop cell neighbors isYearEnd rJ rE rT).education ∧
      (updatePopulation pop cell neighbors isYearEnd rJ rE rT).education ≤ 100 ∧
      0 ≤ (updatePopulation pop cell neighbors isYearEnd rJ rE rT).tech_level ∧
      (updatePopulation pop cell neighbors isYearEnd rJ rE rT).tech_level ≤ 9) ∧
    (∀ w l : PopulationState, 0 ≤ w.population_size → 0 ≤ l.population_size →
      0 ≤ (applyConflict w l).1.population_size ∧
      0 ≤ (applyConflict w l).2.population_size ∧
      (applyConflict w l).1.stability = w.stability - 10 ∧
      (applyConflict w l).2.stability = l.stability - 20) ∧
    (∀ p : PopulationState,
      (techSpreadUpdate p).education = p.education + 1 ∧
      (techSpreadUpdate p).population_size = p.population_size ∧
      (techSpreadUpdate p).stability = p.stability ∧
      (techSpreadUpdate p).prosperity = p.prosperity ∧
      (techSpreadUpdate p).tech_level = p.tech_level) ∧
    (∀ (pop : PopulationState) (targetCellId : ℕ),
      0 ≤ pop.population_size →
      0 ≤ pop.education → pop.education ≤ 100 →
      0 ≤ pop.tech_level → pop.tech_level ≤ 9 →
      0 ≤ pop.population_size - migrantsOf pop ∧
      0 ≤ (settlerPop pop targetCellId).population_size ∧
      (settlerPop pop targetCellId).stability = 50 ∧
      (settlerPop pop targetCellId).prosperity = 40 ∧
      0 ≤ (settlerPop pop targetCellId).education ∧
      (settlerPop pop targetCellId).education ≤ 100 ∧
      0 ≤ (settlerPop pop targetCellId).tech_level ∧
      (settlerPop pop targetCellId).tech_level ≤ 9) ∧
    (∀ p : PopulationState, ClaimedBounds p →
      ClaimedBounds (applyGoldenAge p) ∧ ClaimedBounds (applyFamine p) ∧
      ClaimedBounds (applyPlague p)) ∧
    (∀ (st : ExpDbStatement) (p : PopulationState), ClaimedBounds p →
      ClaimedBounds (applyExpStatement st p)) := by
  refine ⟨?_, ?_, ?_, ?_, ?_, ?_⟩
  · intro pop cell neighbors isYearEnd rJ rE rT hrJ hrE he0 he1 ht0 ht1
    simp only [updatePopulation]
    refine ⟨?_, ?_, ?_, ?_, ?_, ?_, ?_, ?_, ?_⟩
    · refine Int.floor_nonneg.mpr (mul_nonneg ?_ (by linarith))
      exact_mod_cast le_max_left 0 _
    · exact le_max_left 0 _
    · exact max_le (by norm_num) (min_le_left _ _)
    · exact le_max_left 0 _
    · exact max_le (by norm_num) (min_le_left _ _)
    · split
      · exact le_min (by norm_num) (by linarith)
      · exact he0
    · split
      · exact min_le_left _ _
      · exact he1
    · split
      · exact le_min (by norm_num) (by omega)
      · exact ht0
    · split
      · exact min_le_left _ _
      · exact ht1
  · intro w l hw hl
    refine ⟨?_, ?_, rfl, rfl⟩
    · have := floor_mul_le_self w.population_size hw 0.05 (by norm_num)
      simp only [applyConflict]
      omega
    · have := floor_mul_le_self l.population_size hl 0.15 (by norm_num)
      simp only [applyConflict]
      omega
  · intro p
    exact ⟨rfl, rfl, rfl, rfl, rfl⟩
  · intro pop targetCellId hs he0 he1 ht0 ht1
    have hmig : migrantsOf pop ≤ pop.population_size :=
      floor_mul_le_self pop.population_size hs 0.1 (by norm_num)
    have hmig0 : 0 ≤ migrantsOf pop := by
      refine Int.floor_nonneg.mpr (mul_nonneg ?_ (by norm_num))
      exact_mod_cast hs
    refine ⟨by omega, ?_, rfl, rfl, ?_, ?_, ?_, ?_⟩
    · simpa [settlerPop] using hmig0
    · simp only [settlerPop]
      nlinarith
    · simp only [settlerPop]
      nlinarith
    · simp only [settlerPop]
      exact le_max_left 0 _
    · simp only [settlerPop]
      exact max_le (by norm_num) (by omega)
  · intro p hp
    obtain ⟨hs, h1, h2, h3, h4, h5, h6, h7, h8⟩ := hp
    refine ⟨⟨hs, h1, h2, ?_, ?_, ?_, ?_, h7, h8⟩,
      ⟨round_max_nonneg _, le_max_left 0 _, ?_, le_max_left 0 _, ?_, h5, h6, h7, h8⟩,
      ⟨round_max_nonneg _, h1, h2, h3, h4, h5, h6, h7, h8⟩⟩
    · exact le_min (by norm_num) (by linarith)
    · exact min_le_left _ _
    · exact le_min (by norm_num) (by linarith)
    · exact min_le_left _ _
    · exact max_le (by norm_num) (by linarith)
    · exact max_le (by norm_num) (by linarith)
  · intro st p hp
    obtain ⟨hs, h1, h2, h3, h4, h5, h6, h7, h8⟩ := hp
    cases st with
    | seedSpecies cellId speciesId => exact ⟨hs, h1, h2, h3, h4, h5, h6, h7, h8⟩
    | pandemic lethality cellId =>
        exact ⟨round_max_nonneg _, h1, h2, h3, h4, h5, h6, h7, h8⟩
    | uplift cellId =>
        exact ⟨hs, le_max_left 0 _, max_le (by norm_num) (by linarith), h3, h4,
          le_min (by norm_num) (by linarith), min_le_left _ _,
          le_min (by norm_num) (by omega), min_le_left _ _⟩
    | giftKnowledge cellId =>
        exact ⟨hs, h1, h2, h3, h4, le_min (by norm_num) (by linarith),
          min_le_left _ _, h7, h8⟩
    | ideologyNudge axis direction cellId =>
        show ClaimedBounds (nudgeAxis axis direction p)
        unfold nudgeAxis
        split_ifs <;> exact ⟨hs, h1, h2, h3, h4, h5, h6, h7, h8⟩
    | propheticVision cellId =>
        exact ⟨hs, le_max_left 0 _, max_le (by norm_num) (by linarith), h3, h4,
          h5, h6, h7, h8⟩
    | meteor cellId =>
        exact ⟨round_max_nonneg _, le_refl 0, (by norm_num : (0 : ℚ) ≤ 100),
          le_refl 0, (by norm_num : (0 : ℚ) ≤ 100), h5, h6, h7, h8⟩
    | supervolcano cellId =>
        exact ⟨round_max_nonneg _, h1, h2, le_max_left 0 _,
          max_le (by norm_num) (by linarith), h5, h6, h7, h8⟩
    | cropCircles cellId =>
        exact ⟨hs, le_max_left 0 _, max_le (by norm_num) (by linarith), h3, h4,
          h5, h6, h7, h8⟩
    | miracle cellId =>
        exact ⟨hs, h1, h2, le_min (by norm_num) (by linarith), min_le_left _ _,
          h5, h6, h7, h8⟩

/-- Witness for C1's amended statement: the dynamics clause at the
scenario population, the conflict clause at the two conflict demo
populations, the migration clause at the migration demo source, and the
event/experiment clauses at the scenario population. -/
theorem C1_bounds_amended_witness :
    (0 ≤ (updatePopulation scenarioPop grasslandCell [] false 0 0 1).stability ∧
      (updatePopulation scenarioPop grasslandCell [] false 0 0 1).stability ≤ 100) ∧
    0 ≤ (applyConflict conflictPopA conflictPopB).1.population_size ∧
    0 ≤ migSourcePop.population_size - migrantsOf migSourcePop ∧
    ClaimedBounds (applyFamine scenarioPop) ∧
    ClaimedBounds (applyExpStatement (.uplift 0) scenarioPop) := by
  have hb : ClaimedBounds scenarioPop := by
    norm_num [ClaimedBounds, scenarioPop, basePop]
  have h1 := C1_bounds_amended.1 scenarioPop grasslandCell [] false 0 0 1
    (le_refl 0) (le_refl 0) (by norm_num [scenarioPop, basePop])
    (by norm_num [scenarioPop, basePop]) (by norm_num [scenarioPop, basePop])
    (by norm_num [scenarioPop, basePop])
  have h2 := C1_bounds_amended.2.1 conflictPopA conflictPopB
    (by norm_num [conflictPopA, basePop]) (by norm_num [conflictPopB, basePop])
  have h4 := C1_bounds_amended.2.2.2.1 migSourcePop 8
    (by norm_num [migSourcePop, basePop]) (by norm_num [migSourcePop, basePop])
    (by norm_num [migSourcePop, basePop]) (by norm_num [migSourcePop, basePop])
    (by norm_num [migSourcePop, basePop])
  have h5 := C1_bounds_amended.2.2.2.2.1 scenarioPop hb
  have h6 := C1_bounds_amended.2.2.2.2.2 (.uplift 0) scenarioPop hb
  exact ⟨⟨h1.2.1, h1.2.2.1⟩, h2.1, h4.1, h5.2.1, h6⟩

/-! ## C4 — conflict losses

The exact loss amounts of the claim match the code, but the claimed
"floored at 0" does not exist in the source: the UPDATEs subtract raw. -/

/-- C4 counterexample: conflict between `conflictPopC` (size 4000,
stability 8) and `conflictPopD` (size 1000, stability 15), chance
`(90+70)/200 = 0.8`, roll 3/10: the winner's stability becomes `-2` and the
loser's `-5`, not the `0` a floor at 0 would give. -/
theorem C4_conflict_counterexample :
    ((processConflictCell [conflictPopC, conflictPopD] (3/10)).map
        (fun pr => (pr.1.population_size, pr.1.stability,
                    pr.2.population_size, pr.2.stability)))
      = some (3800, -2, 850, -5) ∧
    max (0 : ℚ) (conflictPopC.stability - 10) = 0 ∧ ((-2 : ℚ) ≠ 0) := by
  have hsort : sortBySizeDesc [conflictPopC, conflictPopD]
      = [conflictPopC, conflictPopD] := by
    norm_num [sortBySizeDesc, insertBySizeDesc, conflictPopC, conflictPopD, basePop]
  have hlen : ¬ (([conflictPopC, conflictPopD] : List PopulationState).length < 2) := by
    norm_num
  have hciv : ¬ ((distinctCivs [conflictPopC, conflictPopD]).length < 2) := by decide
  have hchance : (3/10 : ℚ) < conflictChance [conflictPopC, conflictPopD] := by
    norm_num [conflictChance, avgWarTendency, avgXenophobia, conflictPopC,
      conflictPopD, basePop]
  refine ⟨?_, ?_, by norm_num⟩
  · rw [processConflictCell, if_neg hlen, if_neg hciv, if_pos hchance, hsort]
    norm_num [applyConflict, conflictPopC, conflictPopD, basePop]
  · norm_num [conflictPopC, basePop]

/-- C4 amended: when a conflict fires, the winner loses exactly
`floor(0.05 * size)` population and exactly 10 stability, the loser exactly
`floor(0.15 * size)` population and exactly 20 stability, with *no* floor
at 0 applied to either field — stability may go negative — although each
participant's population size stays ≥ 0 because the loss never exceeds the
size.  The fired update is applied to the two largest co-located
populations (head of the size-descending sort). -/
theorem C4_conflict_losses :
    (∀ w l : PopulationState, 0 ≤ w.population_size → 0 ≤ l.population_size →
      (applyConflict w l).1.population_size
        = w.population_size - Int.floor ((w.population_size : ℚ) * 0.05) ∧
      (applyConflict w l).1.stability = w.stability - 10 ∧
      (applyConflict w l).2.population_size
        = l.population_size - Int.floor ((l.population_size : ℚ) * 0.15) ∧
      (applyConflict w l).2.stability = l.stability - 20 ∧
      0 ≤ (applyConflict w l).1.population_size ∧
      0 ≤ (applyConflict w l).2.population_size) ∧
    (∀ (pops : List PopulationState) (draw : ℚ) (w l : PopulationState)
        (rest : List PopulationState),
      sortBySizeDesc pops = w :: l :: rest →
      ¬ pops.length < 2 → ¬ (distinctCivs pops).length < 2 →
      draw < conflictChance pops →
      processConflictCell pops draw = some (applyConflict w l)) := by
  constructor
  · intro w l hw hl
    refine ⟨rfl, rfl, rfl, rfl, ?_, ?_⟩
    · have := floor_mul_le_self w.population_size hw 0.05 (by norm_num)
      simp only [applyConflict]
      omega
    · have := floor_mul_le_self l.population_size hl 0.15 (by norm_num)
      simp only [applyConflict]
      omega
  · intro pops draw w l rest hsort hlen hciv hdraw
    rw [processConflictCell, if_neg hlen, if_neg hciv, if_pos hdraw, hsort]

/-- Witness for C4's amended statement at the second conflict demo. -/
theorem C4_conflict_losses_witness :
    processConflictCell [conflictPopC, conflictPopD] (3/10)
      = some (applyConflict conflictPopC conflictPopD) ∧
    (applyConflict conflictPopC conflictPopD).1.stability
      = conflictPopC.stability - 10 :=
  ⟨C4_conflict_losses.2 [conflictPopC, conflictPopD] (3/10) conflictPopC
      conflictPopD []
      (by norm_num [sortBySizeDesc, insertBySizeDesc, conflictPopC, conflictPopD,
        basePop])
      (by norm_num) (by decide)
      (by norm_num [conflictChance, avgWarTendency, avgXenophobia, conflictPopC,
        conflictPopD, basePop]),
    (C4_conflict_losses.1 conflictPopC conflictPopD
      (by norm_num [conflictPopC, basePop])
      (by norm_num [conflictPopD, basePop])).2.1⟩

/-! ## C3 — migration

The decrement and the new-settlement field formulas match the code, but the
claimed same-civilization condition on merging does not exist in the
source: `processMigrations` merges into whatever population `find` locates
on the target cell, regardless of its civilization. -/

lemma migDemo_cc :
    calculateCarryingCapacity migSourceCell migSourcePop.tech_level = 2000 := by
  norm_num [calculateCarryingCapacity, migSourceCell, migSourcePop, basePop,
    if_neg biome_grassland_ne_ocean, if_neg biome_grassland_ne_desert]

lemma migDemo_find :
    List.find? (fun p => p.cell_id == migTargetCell.id)
        [migSourcePop, migForeignPop] = some migForeignPop := by
  simp [List.find?, migSourcePop, migForeignPop, migTargetCell, basePop]

lemma migDemo_candidates :
    migrationCandidates (calculateCarryingCapacity migSourceCell migSourcePop.tech_level)
        [migTargetCell] [migSourcePop, migForeignPop] = [migTargetCell] := by
  rw [migrationCandidates, migDemo_cc]
  have hfind := migDemo_find
  simp only [List.filter, hfind]
  norm_num [migForeignPop, migTargetCell, basePop, biome_grassland_ne_ocean]

/-- C3 counterexample: the migration demo source (civilization 1) migrates
into a target cell already occupied by civilization 2's population; the
code *merges* the 200 migrants into that foreign population (UPDATE of row
id 21) instead of creating a new population for civilization 1 as the
claim requires. -/
theorem C3_migration_counterexample :
    migrateStep migSourcePop migSourceCell [migTargetCell]
        [migSourcePop, migForeignPop] 0
      = some (.merge 21 200, 200) ∧
    migForeignPop.civilization_id ≠ migSourcePop.civilization_id := by
  constructor
  · have h1 : ¬ migSourcePop.population_size < 1000 := by
      norm_num [migSourcePop, basePop]
    have h2 : ¬ ((migSourcePop.population_size : ℚ)
        < ((calculateCarryingCapacity migSourceCell migSourcePop.tech_level : ℤ) : ℚ)
          * 0.9) := by
      rw [migDemo_cc]
      norm_num [migSourcePop, basePop]
    simp only [migrateStep, if_neg h1, if_neg h2, migDemo_candidates]
    simp only [List.length_cons, List.length_nil, Nat.zero_mod,
      List.getElem?_cons_zero, migDemo_find]
    norm_num [migrantsOf, migForeignPop, migSourcePop, basePop]
  · norm_num [migForeignPop, migSourcePop, basePop]

/-- C3 amended: for every population that migrates, the source is
decremented by exactly `migrants = floor(0.1 * size)`; if the target cell
already holds *any* population (the first one found, regardless of its
civilization) the migrants are added to it; only when the target cell holds
no population at all is a new one created, with `population_size =
migrants`, `tech_level = max(0, source.tech_level - 1)`, `stability = 50`,
`prosperity = 40`, `education = 0.8 * source.education`, for the source's
civilization. -/
theorem C3_migration_step :
    ∀ (pop : PopulationState) (cell : CellState) (neighbors : List CellState)
      (populations : List PopulationState) (pick : ℕ) (target : CellState),
      ¬ pop.population_size < 1000 →
      ¬ ((pop.population_size : ℚ)
          < ((calculateCarryingCapacity cell pop.tech_level : ℤ) : ℚ) * 0.9) →
      (migrationCandidates (calculateCarryingCapacity cell pop.tech_level)
          neighbors populations)[pick %
            (migrationCandidates (calculateCarryingCapacity cell pop.tech_level)
              neighbors populations).length]? = some target →
      migrantsOf pop = Int.floor ((pop.population_size : ℚ) * 0.1) ∧
      (∀ ex, populations.find? (fun p => p.cell_id == target.id) = some ex →
        migrateStep pop cell neighbors populations pick
          = some (.merge ex.id (migrantsOf pop), migrantsOf pop)) ∧
      (populations.find? (fun p => p.cell_id == target.id) = none →
        migrateStep pop cell neighbors populations pick
          = some (.settle (settlerPop pop target.id), migrantsOf pop)) ∧
      (settlerPop pop target.id).population_size = migrantsOf pop ∧
      (settlerPop pop target.id).tech_level = max 0 (pop.tech_level - 1) ∧
      (settlerPop pop target.id).stability = 50 ∧
      (settlerPop pop target.id).prosperity = 40 ∧
      (settlerPop pop target.id).education = pop.education * 0.8 ∧
      (settlerPop pop target.id).civilization_id = pop.civilization_id := by
  intro pop cell neighbors populations pick target h1 h2 ht
  refine ⟨rfl, ?_, ?_, rfl, rfl, rfl, rfl, rfl, rfl⟩
  · intro ex hex
    simp only [migrateStep, if_neg h1, if_neg h2, ht, hex]
  · intro hnone
    simp only [migrateStep, if_neg h1, if_neg h2, ht, hnone]

/-- Witness for C3's amended statement at the migration demo. -/
theorem C3_migration_step_witness :
    migrateStep migSourcePop migSourceCell [migTargetCell]
        [migSourcePop, migForeignPop] 0
      = some (.merge migForeignPop.id (migrantsOf migSourcePop),
              migrantsOf migSourcePop) :=
  ((C3_migration_step migSourcePop migSourceCell [migTargetCell]
      [migSourcePop, migForeignPop] 0 migTargetCell
      (by norm_num [migSourcePop, basePop])
      (by rw [migDemo_cc]; norm_num [migSourcePop, basePop])
      (by rw [migDemo_candidates]; rfl)).2.1) migForeignPop migDemo_find

/-! ## C2 — the neighbor relation is symmetric, not asymmetric

The offset set `[(-1,0),(1,0),(0,-1),(0,1),(-1,-1),(1,1)]` is closed under
negation — `(-1,-1)` and `(1,1)` are each other's negations — so whenever
`B = A + d` is found in the grid, `A = B + (-d)` is looked up too.  For any
cell list with distinct coordinates (the schema enforces
`UNIQUE(world_id, x, y)` on `cells`) the relation is therefore symmetric,
contradicting the claim. -/

lemma gridLookup_mem_coords {cells : List CellState} {x y : ℤ} {c : CellState}
    (h : gridLookup cells x y = some c) : c ∈ cells ∧ c.x = x ∧ c.y = y := by
  have hmem := List.mem_of_find?_eq_some h
  have hpred := List.find?_some h
  simp only [Bool.and_eq_true, beq_iff_eq] at hpred
  exact ⟨List.mem_reverse.mp hmem, hpred.1, hpred.2⟩

lemma gridLookup_self {cells : List CellState}
    (hinj : ∀ a ∈ cells, ∀ b ∈ cells, a.x = b.x → a.y = b.y → a = b)
    {a : CellState} (ha : a ∈ cells) : gridLookup cells a.x a.y = some a := by
  cases h : gridLookup cells a.x a.y with
  | none =>
      exfalso
      rw [gridLookup] at h
      have := List.find?_eq_none.mp h a (List.mem_reverse.mpr ha)
      simp at this
  | some c =>
      obtain ⟨hc, hx, hy⟩ := gridLookup_mem_coords h
      rw [hinj c hc a ha hx hy]

/-- C2 counterexample: the offset set is closed under negation, and on the
concrete 3×3 grid the exhaustive symmetry check holds — no pair (A, B) with
B a neighbor of A but not conversely exists there, contrary to the claimed
asymmetry. -/
theorem C2_symmetry_counterexample :
    (directions.all (fun d => directions.any (fun e => e = (-d.1, -d.2)))) = true ∧
    neighborSymCheck demoGrid = true := by
  constructor
  · decide
  · decide

/-- C2 amended: for every cell list whose coordinate pairs identify cells
uniquely (as the DB schema guarantees), the neighbor relation built from
the 6-direction offset set *is* symmetric: if B is in A's neighbor list
then A is in B's. -/
theorem C2_neighbors_symmetric :
    ∀ (cells : List CellState),
      (∀ a ∈ cells, ∀ b ∈ cells, a.x = b.x → a.y = b.y → a = b) →
      ∀ a ∈ cells, ∀ b ∈ neighborsOf cells a, a ∈ neighborsOf cells b := by
  intro cells hinj a ha b hb
  rw [neighborsOf, List.mem_filterMap] at hb
  obtain ⟨d, hd, hlook⟩ := hb
  obtain ⟨_hbmem, hbx, hby⟩ := gridLookup_mem_coords hlook
  rw [neighborsOf, List.mem_filterMap]
  refine ⟨(-d.1, -d.2), ?_, ?_⟩
  · simp only [directions, List.mem_cons, List.not_mem_nil, or_false] at hd
    rcases hd with rfl | rfl | rfl | rfl | rfl | rfl <;> decide
  · have hx : b.x + (-d.1, -d.2).1 = a.x := by
      simp only []
      omega
    have hy : b.y + (-d.1, -d.2).2 = a.y := by
      simp only []
      omega
    rw [hx, hy]
    exact gridLookup_self hinj ha

/-- Witness for C2's amended statement: on the demo grid, `demoCellB` is a
neighbor of `demoCellA`, and symmetry puts `demoCellA` back into
`demoCellB`'s neighbor list. -/
theorem C2_neighbors_symmetric_witness :
    demoCellA ∈ neighborsOf demoGrid demoCellB :=
  C2_neighbors_symmetric demoGrid (by decide) demoCellA (by decide) demoCellB
    (by decide)

/-! ## C5 — failed ticks

The catch-and-continue and the counters-first behaviour match the code,
but "applying none of the tick's effects" does not: every `db.query`
before the throw point has already committed (there is no transaction), so
a tick that fails mid-body keeps its earlier effects. -/

/-- C5 counterexample: a tick whose body performs one population update and
then throws.  The tick fails (`bodyThrows = true`), the in-memory counter
advances, counter persistence and notifications are skipped — yet the
population update *was* applied (5000 → 4995), contradicting "applying none
of the tick's effects". -/
theorem C5_failed_tick_counterexample :
    bodyThrows (demoFailingBody 1 0 false) = true ∧
    (tickOnce demoFailingBody demoEngineState).currentTick = 1 ∧
    (tickOnce demoFailingBody demoEngineState).world.pops.map
        (fun p => p.population_size) = [4995] ∧
    demoEngineState.world.pops.map (fun p => p.population_size) = [5000] ∧
    (tickOnce demoFailingBody demoEngineState).world.db_tick = 0 ∧
    (tickOnce demoFailingBody demoEngineState).emitted = [] := by
  refine ⟨rfl, rfl, ?_, rfl, rfl, rfl⟩
  show [(updatePopulation scenarioPop grasslandCell [] false 0 0 1).population_size]
      = [4995]
  have hsize : (updatePopulation scenarioPop grasslandCell [] false 0 0 1).population_size
      = 4995 := by
    simp only [updatePopulation]
    norm_num [birthsPerTick, deathsPerTick, effectiveBirthRate, effectiveDeathRate,
      crowdingFactor, calculateCarryingCapacity, grasslandCell, scenarioPop, basePop,
      TICKS_PER_YEAR, if_neg biome_grassland_ne_ocean, if_neg biome_grassland_ne_desert,
      max_def, min_def]
  rw [hsize]

/-- C5 amended: an exception in the tick body is caught and not propagated
(`tickOnce` is total and the loop continues), and the in-memory tick (and,
on a year boundary, year) counter has already been incremented, so a failed
tick advances simulated time.  But only the effects *after* the throw point
are skipped: the state equals the one produced by the throw-free prefix of
the body, every mutation before the exception staying applied.  Only a tick
that throws before its first effect applies none of them. -/
theorem C5_tick_fail_soft :
    (∀ (body : ℕ → ℕ → Bool → List TickStep) (s : EngineState),
      (tickOnce body s).currentTick = s.currentTick + 1 ∧
      (tickOnce body s).currentYear =
        (if (s.currentTick + 1) % TICKS_PER_YEAR == 0 then s.currentYear + 1
         else s.currentYear)) ∧
    (∀ (body : ℕ → ℕ → Bool → List TickStep) (s : EngineState)
        (rest : List TickStep),
      body (s.currentTick + 1)
          (if (s.currentTick + 1) % TICKS_PER_YEAR == 0 then s.currentYear + 1
           else s.currentYear)
          ((s.currentTick + 1) % TICKS_PER_YEAR == 0) = TickStep.throwErr :: rest →
      (tickOnce body s).world = s.world ∧ (tickOnce body s).emitted = s.emitted) ∧
    (∀ (pre suf : List TickStep) (w : WorldDb) (es : List String),
      bodyThrows pre = false →
      runBody (pre ++ TickStep.throwErr :: suf) w es = runBody pre w es) := by
  refine ⟨?_, ?_, ?_⟩
  · intro body s
    exact ⟨rfl, rfl⟩
  · intro body s rest hbody
    constructor
    · show (runBody (body (s.currentTick + 1) _ _) s.world s.emitted).1 = s.world
      rw [hbody]
      rfl
    · show (runBody (body (s.currentTick + 1) _ _) s.world s.emitted).2 = s.emitted
      rw [hbody]
      rfl
  · intro pre
    induction pre with
    | nil =>
        intro suf w es _h
        rfl
    | cons st rest ih =>
        intro suf w es h
        cases st with
        | write f => exact ih suf (f w) es h
        | emit e => exact ih suf w (es ++ [e]) h
        | throwErr => exact absurd h (by simp [bodyThrows])

/-- Witness for C5's amended statement: a body that throws before any
effect leaves the store and the notification log unchanged, and the prefix
property at a singleton prefix. -/
theorem C5_tick_fail_soft_witness :
    ((tickOnce demoThrowFirstBody demoEngineState).world = demoEngineState.world ∧
      (tickOnce demoThrowFirstBody demoEngineState).emitted
        = demoEngineState.emitted) ∧
    runBody ([TickStep.emit "tick"] ++ TickStep.throwErr :: [])
        demoEngineState.world []
      = runBody [TickStep.emit "tick"] demoEngineState.world [] :=
  ⟨C5_tick_fail_soft.2.1 demoThrowFirstBody demoEngineState [] rfl,
   C5_tick_fail_soft.2.2 [TickStep.emit "tick"] [] demoEngineState.world [] rfl⟩

/-! ## C8 — unknown experiment type within a known category -/

/-- C8: executing a pending experiment whose category is one of the five
known ones but whose type is unrecognized does not throw: the handler's
default branch returns `{success: false, message}`, `executeExperiment`
marks the experiment `resolved` (not `failed`) with that payload, no SQL
effect is issued, and — because the result is not a success — no reputation
delta is applied to the submitting player. -/
theorem C8_unknown_type_resolved (exp : Experiment)
    (hcat : exp.category ∈
      ["biological", "technological", "sociopolitical", "catastrophic", "playful"])
    (htype : exp.type ∉ knownTypes exp.category) :
    (executeExperiment exp).status = "resolved" ∧
    (executeExperiment exp).result.success = false ∧
    (executeExperiment exp).result.payload
      = some (.message (unknownTypeMessage exp.category)) ∧
    (executeExperiment exp).repDelta = none ∧
    (executeExperiment exp).statements = [] := by
  simp only [List.mem_cons, List.not_mem_nil, or_false] at hcat
  rcases hcat with h | h | h | h | h
  · have hk : knownTypes exp.category = ["seed_species", "pandemic"] := by rw [h]; rfl
    rw [hk] at htype
    simp only [List.mem_cons, List.not_mem_nil, or_false, not_or] at htype
    have hexec : executeExperiment exp =
        { status := "resolved",
          result := ⟨false, some (.message "Unknown biological experiment")⟩,
          repDelta := none, statements := [] } := by
      simp only [executeExperiment, executeBiologicalExperiment, if_pos h,
        if_neg htype.1, if_neg htype.2, updatePlayerReputation]
      rfl
    exact ⟨by rw [hexec], by rw [hexec], by rw [hexec, h]; rfl, by rw [hexec],
      by rw [hexec]⟩
  · have hne1 : exp.category ≠ "biological" := by rw [h]; decide
    have hk : knownTypes exp.category = ["uplift", "gift_knowledge"] := by
      rw [h]; rfl
    rw [hk] at htype
    simp only [List.mem_cons, List.not_mem_nil, or_false, not_or] at htype
    have hexec : executeExperiment exp =
        { status := "resolved",
          result := ⟨false, some (.message "Unknown tech experiment")⟩,
          repDelta := none, statements := [] } := by
      simp only [executeExperiment, executeTechnologicalExperiment, if_neg hne1,
        if_pos h, if_neg htype.1, if_neg htype.2, updatePlayerReputation]
      rfl
    exact ⟨by rw [hexec], by rw [hexec], by rw [hexec, h]; rfl, by rw [hexec],
      by rw [hexec]⟩
  · have hne1 : exp.category ≠ "biological" := by rw [h]; decide
    have hne2 : exp.category ≠ "technological" := by rw [h]; decide
    have hk : knownTypes exp.category = ["ideology_nudge", "prophetic_vision"] := by
      rw [h]; rfl
    rw [hk] at htype
    simp only [List.mem_cons, List.not_mem_nil, or_false, not_or] at htype
    have hexec : executeExperiment exp =
        { status := "resolved",
          result := ⟨false, some (.message "Unknown sociopolitical experiment")⟩,
          repDelta := none, statements := [] } := by
      simp only [executeExperiment, executeSociopoliticalExperiment, if_neg hne1,
        if_neg hne2, if_pos h, if_neg htype.1, if_neg htype.2,
        updatePlayerReputation]
      rfl
    exact ⟨by rw [hexec], by rw [hexec], by rw [hexec, h]; rfl, by rw [hexec],
      by rw [hexec]⟩
  · have hne1 : exp.category ≠ "biological" := by rw [h]; decide
    have hne2 : exp.category ≠ "technological" := by rw [h]; decide
    have hne3 : exp.category ≠ "sociopolitical" := by rw [h]; decide
    have hk : knownTypes exp.category = ["meteor", "supervolcano"] := by rw [h]; rfl
    rw [hk] at htype
    simp only [List.mem_cons, List.not_mem_nil, or_false, not_or] at htype
    have hexec : executeExperiment exp =
        { status := "resolved",
          result := ⟨false, some (.message "Unknown catastrophic experiment")⟩,
          repDelta := none, statements := [] } := by
      simp only [executeExperiment, executeCatastrophicExperiment, if_neg hne1,
        if_neg hne2, if_neg hne3, if_pos h, if_neg htype.1, if_neg htype.2,
        updatePlayerReputation]
      rfl
    exact ⟨by rw [hexec], by rw [hexec], by rw [hexec, h]; rfl, by rw [hexec],
      by rw [hexec]⟩
  · have hne1 : exp.category ≠ "biological" := by rw [h]; decide
    have hne2 : exp.category ≠ "technological" := by rw [h]; decide
    have hne3 : exp.category ≠ "sociopolitical" := by rw [h]; decide
    have hne4 : exp.category ≠ "catastrophic" := by rw [h]; decide
    have hk : knownTypes exp.category = ["crop_circles", "miracle"] := by rw [h]; rfl
    rw [hk] at htype
    simp only [List.mem_cons, List.not_mem_nil, or_false, not_or] at htype
    have hexec : executeExperiment exp =
        { status := "resolved",
          result := ⟨false, some (.message "Unknown playful experiment")⟩,
          repDelta := none, statements := [] } := by
      simp only [executeExperiment, executePlayfulExperiment, if_neg hne1,
        if_neg hne2, if_neg hne3, if_neg hne4, if_pos h, if_neg htype.1,
        if_neg htype.2, updatePlayerReputation]
      rfl
    exact ⟨by rw [hexec], by rw [hexec], by rw [hexec, h]; rfl, by rw [hexec],
      by rw [hexec]⟩

/-- Witness for C8 at the demo experiment (category `biological`, type
`transmute`). -/
theorem C8_unknown_type_resolved_witness :
    (executeExperiment demoUnknownExp).status = "resolved" ∧
    (executeExperiment demoUnknownExp).result.success = false ∧
    (executeExperiment demoUnknownExp).result.payload
      = some (.message (unknownTypeMessage demoUnknownExp.category)) ∧
    (executeExperiment demoUnknownExp).repDelta = none ∧
    (executeExperiment demoUnknownExp).statements = [] :=
  C8_unknown_type_resolved demoUnknownExp (by decide) (by decide)

end AliensInSpace
